import Mathlib

/-!
Verification of the risk-aggregation engine of the Rug-checker project.

The repository ships two scanner variants with one shared scoring formula:
the CLI `rugCheck` report and the `silentScan` API entry point.  Both fold
six independently fetched signal results (token info, contract-function
scan, liquidity, holders, honeypot, sentiment) into a numeric risk score
clamped to [0, 100] and a categorical verdict.  The definitions below embed
that scoring formula, the verdict thresholds, and the per-signal liquidity
risk classifier, field for field from the source.
-/

namespace RugChecker

/-- Categorical risk label attached to an individual signal result. -/
inductive Risk where
  | LOW
  | MEDIUM
  | HIGH
  | CRITICAL
  | UNKNOWN
deriving DecidableEq

/-- Overall verdict derived from the aggregated score. -/
inductive Verdict where
  | LOW
  | MEDIUM
  | HIGH
  | CRITICAL
deriving DecidableEq

/-- Token-info signal: the fields the aggregator reads.  `ownerStatus` is the
raw status string from the fetcher; the aggregator compares it with the
string "active".  `contractAge` is the age in days, `none` when the fetcher
could not determine it (the code tests `contractAge !== null`). -/
structure TokenInfoSignal where
  success : Bool
  ownerStatus : String
  contractAge : Option ℚ
deriving DecidableEq

/-- Contract-function scan signal: lists of matched dangerous function names
by severity (the aggregator reads their lengths). -/
structure ContractScanSignal where
  success : Bool
  critical : List String
  high : List String
  medium : List String
deriving DecidableEq

/-- Liquidity signal: the fields the aggregator reads. -/
structure LiquiditySignal where
  success : Bool
  liquidityUSD : ℚ
  safePercent : ℚ
deriving DecidableEq

/-- Holder-concentration signal. -/
structure HoldersSignal where
  success : Bool
  top1Percent : ℚ
  top10Percent : ℚ
deriving DecidableEq

/-- Honeypot signal.  `sellTax` is `none` when the upstream API returned no
tax figure; the aggregator reads it through `sellTax || 0`. -/
structure HoneypotSignal where
  success : Bool
  isHoneypot : Bool
  cannotBuy : Bool
  cannotSellAll : Bool
  ownerCanChangeBalance : Bool
  hiddenOwner : Bool
  canTakeBackOwnership : Bool
  sellTax : Option ℚ
deriving DecidableEq

/-- Sentiment signal.  The aggregator never reads it; the report renders
`sentimentScore` and `sentimentLevel` separately. -/
structure SentimentSignal where
  success : Bool
  sentimentScore : ℚ
  sentimentLevel : String
deriving DecidableEq

/-- The six collected signal results handed to the score computation. -/
structure ScanResults where
  tokenInfo : TokenInfoSignal
  contractScan : ContractScanSignal
  liquidity : LiquiditySignal
  holders : HoldersSignal
  honeypot : HoneypotSignal
  sentiment : SentimentSignal
deriving DecidableEq

/-- Ownership contribution: an active (non-renounced) owner adds 15. -/
def ownerPoints (ownerStatus : String) : ℤ :=
  if ownerStatus = "active" then 15 else 0

/-- Contract-age contribution: under 7 days adds 10, under 30 days adds 5,
unknown age adds nothing. -/
def agePoints : Option ℚ → ℤ
  | none => 0
  | some age => if age < 7 then 10 else if age < 30 then 5 else 0

/-- Token-info contribution: owner and age penalties when the fetch
succeeded, nothing when it failed. -/
def tokenInfoPoints (t : TokenInfoSignal) : ℤ :=
  if t.success then ownerPoints t.ownerStatus + agePoints t.contractAge else 0

/-- Contract-scan contribution: 10 per critical, 5 per high, 2 per medium
finding on success; a flat 15 when the scan failed (unverified contract). -/
def contractScanPoints (c : ContractScanSignal) : ℤ :=
  if c.success then
    (c.critical.length : ℤ) * 10 + (c.high.length : ℤ) * 5 + (c.medium.length : ℤ) * 2
  else 15

/-- Liquidity-depth contribution ladder over `liquidityUSD`. -/
def liquidityUsdPoints (liquidityUSD : ℚ) : ℤ :=
  if liquidityUSD < 1000 then 15
  else if liquidityUSD < 10000 then 10
  else if liquidityUSD < 50000 then 5
  else 0

/-- LP-lock contribution ladder over `safePercent`. -/
def lpSafePoints (safePercent : ℚ) : ℤ :=
  if safePercent < 20 then 10
  else if safePercent < 50 then 7
  else if safePercent < 80 then 3
  else 0

/-- Liquidity contribution: depth and lock penalties on success; a flat 20
when no pool data could be fetched. -/
def liquidityPoints (l : LiquiditySignal) : ℤ :=
  if l.success then liquidityUsdPoints l.liquidityUSD + lpSafePoints l.safePercent
  else 20

/-- Top-1-holder contribution ladder. -/
def top1Points (top1Percent : ℚ) : ℤ :=
  if top1Percent > 30 then 15
  else if top1Percent > 20 then 10
  else if top1Percent > 10 then 5
  else 0

/-- Top-10-holders contribution ladder. -/
def top10Points (top10Percent : ℚ) : ℤ :=
  if top10Percent > 70 then 10
  else if top10Percent > 50 then 5
  else 0

/-- Holder contribution: concentration penalties on success, nothing when
the fetch failed (the code has no else branch for holders). -/
def holdersPoints (h : HoldersSignal) : ℤ :=
  if h.success then top1Points h.top1Percent + top10Points h.top10Percent else 0

/-- Honeypot boolean-flag contributions: 50 for a detected honeypot, then
20/20/15/10/10 for the remaining flags. -/
def honeypotFlagPoints (h : HoneypotSignal) : ℤ :=
  (if h.isHoneypot then 50 else 0) +
  (if h.cannotBuy then 20 else 0) +
  (if h.cannotSellAll then 20 else 0) +
  (if h.ownerCanChangeBalance then 15 else 0) +
  (if h.hiddenOwner then 10 else 0) +
  (if h.canTakeBackOwnership then 10 else 0)

/-- Sell-tax contribution ladder (applied to `sellTax || 0`). -/
def sellTaxPoints (sellTax : ℚ) : ℤ :=
  if sellTax > 50 then 25
  else if sellTax > 20 then 10
  else if sellTax > 10 then 5
  else 0

/-- Honeypot contribution: flag and tax penalties on success, nothing when
the fetch failed (the code has no else branch for honeypot). -/
def honeypotPoints (h : HoneypotSignal) : ℤ :=
  if h.success then honeypotFlagPoints h + sellTaxPoints (h.sellTax.getD 0) else 0

/-- The accumulated score before clamping: the sum of the five signal
contributions the code reads (the sentiment result is never consulted). -/
def rawScore (r : ScanResults) : ℤ :=
  tokenInfoPoints r.tokenInfo + contractScanPoints r.contractScan +
  liquidityPoints r.liquidity + holdersPoints r.holders + honeypotPoints r.honeypot

/-- The aggregated risk score: the accumulated penalties capped at 100
(`riskScore = Math.min(riskScore, 100)`). -/
def riskScore (r : ScanResults) : ℤ :=
  min (rawScore r) 100

/-- Verdict thresholds over the clamped score: 75 and up is CRITICAL, 50 and
up is HIGH, 25 and up is MEDIUM, below 25 is LOW. -/
def riskLevel (score : ℤ) : Verdict :=
  if score ≥ 75 then Verdict.CRITICAL
  else if score ≥ 50 then Verdict.HIGH
  else if score ≥ 25 then Verdict.MEDIUM
  else Verdict.LOW

/-- The overall verdict of a scan. -/
def overallRisk (r : ScanResults) : Verdict :=
  riskLevel (riskScore r)

/-- Per-signal categorical risk ladder of `checkLiquidity` for a successful
fetch, as written in the source: CRITICAL when the pool is shallow and
unlocked, else MEDIUM when either figure is mediocre, else HIGH when the
safe share is low, else LOW. -/
def liquidityRisk (liquidityUSD safePercent : ℚ) : Risk :=
  if liquidityUSD < 10000 ∧ safePercent < 50 then Risk.CRITICAL
  else if liquidityUSD < 50000 ∨ safePercent < 80 then Risk.MEDIUM
  else if safePercent < 50 then Risk.HIGH
  else Risk.LOW

/-- The three terminal outcomes of the liquidity fetcher: the caught
exception path, the no-pool-found path (`priceInUSD === 0`), and the
successful path carrying pool figures. -/
inductive LiquidityFetch where
  | fetchError
  | noPool
  | pool (liquidityUSD safePercent : ℚ)
deriving DecidableEq

/-- The `success` marker and `risk` label of a liquidity signal result. -/
structure LiquidityCheck where
  success : Bool
  risk : Risk
deriving DecidableEq

/-- The result classification of `checkLiquidity`: a caught exception gives
a failed result with risk UNKNOWN; the no-pool-found branch gives a failed
result with risk CRITICAL; a successful fetch is classified by the
`liquidityRisk` ladder. -/
def checkLiquidity : LiquidityFetch → LiquidityCheck
  | LiquidityFetch.fetchError => ⟨false, Risk.UNKNOWN⟩
  | LiquidityFetch.noPool => ⟨false, Risk.CRITICAL⟩
  | LiquidityFetch.pool l s => ⟨true, liquidityRisk l s⟩

/-- The `success` marker and `risk` label shared by the token-info,
contract-scan, holders and honeypot fetcher results, which always set a
risk label. -/
structure SignalCheck where
  success : Bool
  risk : Risk
deriving DecidableEq

/-- The terminal outcomes of the token-info fetcher: the caught exception
path, and the successful path carrying the owner status the risk label
reads. -/
inductive TokenInfoFetch where
  | fetchError
  | info (ownerStatus : String)
deriving DecidableEq

/-- The result classification of `checkTokenInfo`: a caught exception gives
a failed result with risk UNKNOWN; a successful fetch is labelled MEDIUM
when the owner is active and LOW otherwise. -/
def checkTokenInfo : TokenInfoFetch → SignalCheck
  | TokenInfoFetch.fetchError => ⟨false, Risk.UNKNOWN⟩
  | TokenInfoFetch.info ownerStatus =>
      ⟨true, if ownerStatus = "active" then Risk.MEDIUM else Risk.LOW⟩

/-- The terminal outcomes of the contract-function scan: the unverified
contract path (explorer returned no ABI), the caught exception path, and
the successful path carrying the categorized findings. -/
inductive ContractScanFetch where
  | unverified
  | fetchError
  | abi (critical high medium : List String)
deriving DecidableEq

/-- The risk ladder over contract-scan findings, as written in the source:
any critical finding is CRITICAL, two or more high findings are HIGH, one
high finding or two or more medium findings are MEDIUM, else LOW. -/
def contractFindingsRisk (critical high medium : List String) : Risk :=
  if critical.length > 0 then Risk.CRITICAL
  else if high.length ≥ 2 then Risk.HIGH
  else if high.length > 0 ∨ medium.length ≥ 2 then Risk.MEDIUM
  else Risk.LOW

/-- The result classification of `checkContractFunctions`: both failure
paths give risk UNKNOWN; a successful scan is labelled by the findings
ladder. -/
def checkContractFunctions : ContractScanFetch → SignalCheck
  | ContractScanFetch.unverified => ⟨false, Risk.UNKNOWN⟩
  | ContractScanFetch.fetchError => ⟨false, Risk.UNKNOWN⟩
  | ContractScanFetch.abi c h m => ⟨true, contractFindingsRisk c h m⟩

/-- The terminal outcomes of the holders fetcher: the empty-holder-data
path, the caught exception path, and the successful path carrying the
concentration figures the risk label reads. -/
inductive HoldersFetch where
  | noData
  | fetchError
  | holderData (top1Percent top10Percent : ℚ)
deriving DecidableEq

/-- The risk ladder over holder concentration, as written in the source. -/
def holdersRisk (top1Percent top10Percent : ℚ) : Risk :=
  if top1Percent > 30 then Risk.CRITICAL
  else if top1Percent > 20 ∨ top10Percent > 70 then Risk.HIGH
  else if top1Percent > 10 ∨ top10Percent > 50 then Risk.MEDIUM
  else Risk.LOW

/-- The result classification of `checkHolders`: both failure paths give
risk UNKNOWN; a successful fetch is labelled by the concentration ladder. -/
def checkHolders : HoldersFetch → SignalCheck
  | HoldersFetch.noData => ⟨false, Risk.UNKNOWN⟩
  | HoldersFetch.fetchError => ⟨false, Risk.UNKNOWN⟩
  | HoldersFetch.holderData t1 t10 => ⟨true, holdersRisk t1 t10⟩

/-- The terminal outcomes of the honeypot fetcher: the security-API-failed
path, the token-not-in-database path, the caught exception path, and the
successful path carrying the honeypot flag and the categorized issue lists
the risk label reads. -/
inductive HoneypotFetch where
  | apiFailed
  | notInDatabase
  | fetchError
  | securityData (isHoneypot : Bool) (critical high medium : List String)
deriving DecidableEq

/-- The risk ladder over honeypot findings, as written in the source: a
honeypot flag or any critical issue is CRITICAL, two or more high issues
are HIGH, one high issue or two or more medium issues are MEDIUM, else
LOW. -/
def honeypotIssuesRisk (isHoneypot : Bool) (critical high medium : List String) : Risk :=
  if isHoneypot ∨ critical.length > 0 then Risk.CRITICAL
  else if high.length ≥ 2 then Risk.HIGH
  else if high.length > 0 ∨ medium.length ≥ 2 then Risk.MEDIUM
  else Risk.LOW

/-- The result classification of `checkHoneypot`: all three failure paths
give risk UNKNOWN; a successful fetch is labelled by the issues ladder. -/
def checkHoneypot : HoneypotFetch → SignalCheck
  | HoneypotFetch.apiFailed => ⟨false, Risk.UNKNOWN⟩
  | HoneypotFetch.notInDatabase => ⟨false, Risk.UNKNOWN⟩
  | HoneypotFetch.fetchError => ⟨false, Risk.UNKNOWN⟩
  | HoneypotFetch.securityData hp c h m => ⟨true, honeypotIssuesRisk hp c h m⟩

/-- The `success` marker and `risk` field of a sentiment result.  The risk
field is an `Option` because the successful path of the source builds its
result object without any `risk` key (it carries a `sentimentLevel`
instead); `none` models that absent field. -/
structure SentimentCheck where
  success : Bool
  risk : Option Risk
deriving DecidableEq

/-- The terminal outcomes of the sentiment fetcher: the
token-not-found-on-DexScreener path, the caught exception path, and the
successful path carrying the computed sentiment figures. -/
inductive SentimentFetch where
  | notFound
  | fetchError
  | found (sentimentScore : ℚ) (sentimentLevel : String)
deriving DecidableEq

/-- The result classification of `checkSocialSentiment`: both failure
paths set risk UNKNOWN; the successful result object has no risk field at
all. -/
def checkSocialSentiment : SentimentFetch → SentimentCheck
  | SentimentFetch.notFound => ⟨false, some Risk.UNKNOWN⟩
  | SentimentFetch.fetchError => ⟨false, some Risk.UNKNOWN⟩
  | SentimentFetch.found _ _ => ⟨true, none⟩

/-- A scan with every signal clean (spec scenario 2): renounced owner, old
contract, no findings, deep locked liquidity, dispersed holders, no honeypot
flags, low taxes. -/
def cleanScan : ScanResults where
  tokenInfo := ⟨true, "renounced", some 400⟩
  contractScan := ⟨true, [], [], []⟩
  liquidity := ⟨true, 200000, 95⟩
  holders := ⟨true, 5, 20⟩
  honeypot := ⟨true, false, false, false, false, false, false, some 2⟩
  sentiment := ⟨true, 50, "NEUTRAL"⟩

/-- The concrete adverse scan of spec scenario 1: active owner, 3-day-old
contract, one critical finding, 500 USD liquidity with 10 percent safe LP,
top-1 holder at 40 percent and top-10 at 80 percent, no honeypot flags,
5 percent sell tax. -/
def scenario1Scan : ScanResults where
  tokenInfo := ⟨true, "active", some 3⟩
  contractScan := ⟨true, ["mint"], [], []⟩
  liquidity := ⟨true, 500, 10⟩
  holders := ⟨true, 40, 80⟩
  honeypot := ⟨true, false, false, false, false, false, false, some 5⟩
  sentiment := ⟨true, 50, "NEUTRAL"⟩

/-- A scan in which every one of the six fetchers failed. -/
def allFailedScan : ScanResults where
  tokenInfo := ⟨false, "", none⟩
  contractScan := ⟨false, [], [], []⟩
  liquidity := ⟨false, 0, 0⟩
  holders := ⟨false, 0, 0⟩
  honeypot := ⟨false, false, false, false, false, false, false, none⟩
  sentiment := ⟨false, 0, ""⟩

/-- The clean scan with only the holders fetch failed. -/
def failedHoldersScan : ScanResults :=
  { cleanScan with holders := ⟨false, 0, 0⟩ }

/-- The clean scan with the honeypot probe reporting a honeypot. -/
def honeypotScan : ScanResults :=
  { cleanScan with honeypot := ⟨true, true, false, false, false, false, false, some 2⟩ }

lemma ownerPoints_nonneg (s : String) : 0 ≤ ownerPoints s := by
  unfold ownerPoints; split_ifs <;> norm_num

lemma ownerPoints_le (s : String) : ownerPoints s ≤ 15 := by
  unfold ownerPoints; split_ifs <;> norm_num

lemma agePoints_nonneg (a : Option ℚ) : 0 ≤ agePoints a := by
  cases a with
  | none => simp [agePoints]
  | some age => simp only [agePoints]; split_ifs <;> norm_num

lemma tokenInfoPoints_nonneg (t : TokenInfoSignal) : 0 ≤ tokenInfoPoints t := by
  unfold tokenInfoPoints
  split_ifs
  · exact add_nonneg (ownerPoints_nonneg _) (agePoints_nonneg _)
  · norm_num

lemma contractScanPoints_nonneg (c : ContractScanSignal) : 0 ≤ contractScanPoints c := by
  unfold contractScanPoints
  split_ifs
  · positivity
  · norm_num

lemma liquidityUsdPoints_nonneg (x : ℚ) : 0 ≤ liquidityUsdPoints x := by
  unfold liquidityUsdPoints; split_ifs <;> norm_num

lemma lpSafePoints_nonneg (x : ℚ) : 0 ≤ lpSafePoints x := by
  unfold lpSafePoints; split_ifs <;> norm_num

lemma liquidityPoints_nonneg (l : LiquiditySignal) : 0 ≤ liquidityPoints l := by
  unfold liquidityPoints
  split_ifs
  · exact add_nonneg (liquidityUsdPoints_nonneg _) (lpSafePoints_nonneg _)
  · norm_num

lemma top1Points_nonneg (x : ℚ) : 0 ≤ top1Points x := by
  unfold top1Points; split_ifs <;> norm_num

lemma top10Points_nonneg (x : ℚ) : 0 ≤ top10Points x := by
  unfold top10Points; split_ifs <;> norm_num

lemma holdersPoints_nonneg (h : HoldersSignal) : 0 ≤ holdersPoints h := by
  unfold holdersPoints
  split_ifs
  · exact add_nonneg (top1Points_nonneg _) (top10Points_nonneg _)
  · norm_num

lemma honeypotFlagPoints_nonneg (h : HoneypotSignal) : 0 ≤ honeypotFlagPoints h := by
  unfold honeypotFlagPoints
  split_ifs <;> norm_num

lemma sellTaxPoints_nonneg (x : ℚ) : 0 ≤ sellTaxPoints x := by
  unfold sellTaxPoints; split_ifs <;> norm_num

lemma honeypotPoints_nonneg (h : HoneypotSignal) : 0 ≤ honeypotPoints h := by
  unfold honeypotPoints
  split_ifs
  · exact add_nonneg (honeypotFlagPoints_nonneg _) (sellTaxPoints_nonneg _)
  · norm_num

lemma rawScore_nonneg (r : ScanResults) : 0 ≤ rawScore r := by
  unfold rawScore
  have h1 := tokenInfoPoints_nonneg r.tokenInfo
  have h2 := contractScanPoints_nonneg r.contractScan
  have h3 := liquidityPoints_nonneg r.liquidity
  have h4 := holdersPoints_nonneg r.holders
  have h5 := honeypotPoints_nonneg r.honeypot
  linarith

/-- C4: for every collection of signal results, each per-signal contribution
is non-negative and the aggregated score lies in [0, 100]: the sum of the
contributions is clamped to at most 100 after summation. -/
theorem riskScore_bounds (r : ScanResults) :
    0 ≤ tokenInfoPoints r.tokenInfo ∧ 0 ≤ contractScanPoints r.contractScan ∧
    0 ≤ liquidityPoints r.liquidity ∧ 0 ≤ holdersPoints r.holders ∧
    0 ≤ honeypotPoints r.honeypot ∧ 0 ≤ riskScore r ∧ riskScore r ≤ 100 :=
  ⟨tokenInfoPoints_nonneg _, contractScanPoints_nonneg _, liquidityPoints_nonneg _,
   holdersPoints_nonneg _, honeypotPoints_nonneg _,
   le_min (rawScore_nonneg r) (by norm_num), min_le_right _ _⟩

/-- C3: when all six signal fetches failed, the aggregator still produces a
score, and that score is strictly positive: the flat unknown penalties of
the failed contract scan (15) and the failed liquidity probe (20) sum to
35. -/
theorem allFailed_score_positive (r : ScanResults)
    (h1 : r.tokenInfo.success = false) (h2 : r.contractScan.success = false)
    (h3 : r.liquidity.success = false) (h4 : r.holders.success = false)
    (h5 : r.honeypot.success = false) (h6 : r.sentiment.success = false) :
    riskScore r = 35 ∧ 0 < riskScore r := by
  have hraw : rawScore r = 35 := by
    simp [rawScore, tokenInfoPoints, contractScanPoints, liquidityPoints,
      holdersPoints, honeypotPoints, h1, h2, h3, h4, h5]
  refine ⟨?_, ?_⟩ <;> simp [riskScore, hraw]

/-- Closed instance of `allFailed_score_positive` at the all-failed scan. -/
theorem allFailed_score_positive_witness :
    riskScore allFailedScan = 35 ∧ 0 < riskScore allFailedScan :=
  allFailed_score_positive allFailedScan rfl rfl rfl rfl rfl rfl

lemma honeypotFlagPoints_ge_50 (h : HoneypotSignal) (hh : h.isHoneypot = true) :
    50 ≤ honeypotFlagPoints h := by
  unfold honeypotFlagPoints
  rw [if_pos hh]
  split_ifs <;> norm_num

lemma honeypotPoints_ge_50 (h : HoneypotSignal) (hs : h.success = true)
    (hh : h.isHoneypot = true) : 50 ≤ honeypotPoints h := by
  unfold honeypotPoints
  rw [hs]
  have h1 := honeypotFlagPoints_ge_50 h hh
  have h2 := sellTaxPoints_nonneg (h.sellTax.getD 0)
  simp only [if_true]
  linarith

/-- C1: whenever the honeypot probe succeeded and flagged a honeypot, the
aggregated score is at least 50 and the overall verdict is HIGH or
CRITICAL, never LOW or MEDIUM, whatever the other five signals say. -/
theorem honeypot_dominance (r : ScanResults) (hs : r.honeypot.success = true)
    (hh : r.honeypot.isHoneypot = true) :
    50 ≤ riskScore r ∧
    (overallRisk r = Verdict.HIGH ∨ overallRisk r = Verdict.CRITICAL) ∧
    overallRisk r ≠ Verdict.LOW ∧ overallRisk r ≠ Verdict.MEDIUM := by
  have hraw : 50 ≤ rawScore r := by
    have h1 := tokenInfoPoints_nonneg r.tokenInfo
    have h2 := contractScanPoints_nonneg r.contractScan
    have h3 := liquidityPoints_nonneg r.liquidity
    have h4 := holdersPoints_nonneg r.holders
    have h5 := honeypotPoints_ge_50 r.honeypot hs hh
    unfold rawScore
    linarith
  have hscore : 50 ≤ riskScore r := le_min hraw (by norm_num)
  refine ⟨hscore, ?_, ?_, ?_⟩ <;>
    · unfold overallRisk riskLevel
      split_ifs <;> first | simp | omega

/-- Closed instance of `honeypot_dominance` at the honeypot scan. -/
theorem honeypot_dominance_witness :
    50 ≤ riskScore honeypotScan ∧
    (overallRisk honeypotScan = Verdict.HIGH ∨ overallRisk honeypotScan = Verdict.CRITICAL) ∧
    overallRisk honeypotScan ≠ Verdict.LOW ∧ overallRisk honeypotScan ≠ Verdict.MEDIUM :=
  honeypot_dominance honeypotScan rfl rfl

/-- C5: the verdict is derived from the clamped score by the fixed cut
points 75, 50 and 25, with the stated boundary behaviour: 75 is CRITICAL,
74 is HIGH, 50 is HIGH, 49 is MEDIUM, 25 is MEDIUM, 24 is LOW. -/
theorem riskLevel_thresholds (p : ℤ) :
    (75 ≤ p → riskLevel p = Verdict.CRITICAL) ∧
    (50 ≤ p ∧ p < 75 → riskLevel p = Verdict.HIGH) ∧
    (25 ≤ p ∧ p < 50 → riskLevel p = Verdict.MEDIUM) ∧
    (p < 25 → riskLevel p = Verdict.LOW) ∧
    riskLevel 75 = Verdict.CRITICAL ∧ riskLevel 74 = Verdict.HIGH ∧
    riskLevel 50 = Verdict.HIGH ∧ riskLevel 49 = Verdict.MEDIUM ∧
    riskLevel 25 = Verdict.MEDIUM ∧ riskLevel 24 = Verdict.LOW := by
  refine ⟨?_, ?_, ?_, ?_, by decide, by decide, by decide, by decide, by decide, by decide⟩ <;>
    · intro h
      unfold riskLevel
      split_ifs <;> first | rfl | omega

/-- Closed instance of `riskLevel_thresholds` at the CRITICAL boundary. -/
theorem riskLevel_thresholds_witness : riskLevel 75 = Verdict.CRITICAL :=
  (riskLevel_thresholds 75).1 (by decide)

/-- C8: on spec scenario 1 the per-signal contributions are 15+10 for token
info, 10 for the critical finding, 15+10 for liquidity, 15+10 for holders
and 0 for honeypot, the aggregated score is 85 and the verdict CRITICAL. -/
theorem scenario1_critical :
    tokenInfoPoints scenario1Scan.tokenInfo = 15 + 10 ∧
    contractScanPoints scenario1Scan.contractScan = 10 ∧
    liquidityPoints scenario1Scan.liquidity = 15 + 10 ∧
    holdersPoints scenario1Scan.holders = 15 + 10 ∧
    honeypotPoints scenario1Scan.honeypot = 0 ∧
    riskScore scenario1Scan = 85 ∧
    overallRisk scenario1Scan = Verdict.CRITICAL := by
  decide

/-- C9: the aggregated score and the verdict never depend on the sentiment
result: replacing the sentiment signal of any scan by any other sentiment
signal, including swapping success for failure, changes neither the score
nor the verdict, because the score computation never reads that result. -/
theorem sentiment_independent (r : ScanResults) (s : SentimentSignal) :
    riskScore { r with sentiment := s } = riskScore r ∧
    overallRisk { r with sentiment := s } = overallRisk r :=
  ⟨rfl, rfl⟩

/-- C10: the categorical risk label of a successful liquidity check is
always LOW, MEDIUM or CRITICAL and never HIGH: the HIGH branch tests
`safePercent < 50` after the MEDIUM branch has already captured every
input with `safePercent < 80`. -/
theorem liquidityRisk_never_high (l s : ℚ) :
    ((checkLiquidity (LiquidityFetch.pool l s)).risk = Risk.LOW ∨
     (checkLiquidity (LiquidityFetch.pool l s)).risk = Risk.MEDIUM ∨
     (checkLiquidity (LiquidityFetch.pool l s)).risk = Risk.CRITICAL) ∧
    (checkLiquidity (LiquidityFetch.pool l s)).risk ≠ Risk.HIGH := by
  show (liquidityRisk l s = Risk.LOW ∨ liquidityRisk l s = Risk.MEDIUM ∨
    liquidityRisk l s = Risk.CRITICAL) ∧ liquidityRisk l s ≠ Risk.HIGH
  unfold liquidityRisk
  split_ifs with h1 h2 h3
  · exact ⟨Or.inr (Or.inr rfl), by simp⟩
  · exact ⟨Or.inr (Or.inl rfl), by simp⟩
  · exfalso
    push_neg at h2
    linarith [h2.2, h3]
  · exact ⟨Or.inl rfl, by simp⟩

lemma liquidityRisk_ne_unknown (l s : ℚ) : liquidityRisk l s ≠ Risk.UNKNOWN := by
  unfold liquidityRisk
  split_ifs <;> simp

lemma contractFindingsRisk_ne_unknown (c h m : List String) :
    contractFindingsRisk c h m ≠ Risk.UNKNOWN := by
  unfold contractFindingsRisk
  split_ifs <;> simp

lemma holdersRisk_ne_unknown (t1 t10 : ℚ) : holdersRisk t1 t10 ≠ Risk.UNKNOWN := by
  unfold holdersRisk
  split_ifs <;> simp

lemma honeypotIssuesRisk_ne_unknown (hp : Bool) (c h m : List String) :
    honeypotIssuesRisk hp c h m ≠ Risk.UNKNOWN := by
  unfold honeypotIssuesRisk
  split_ifs <;> simp

lemma checkTokenInfo_invariant (t : TokenInfoFetch) :
    ((checkTokenInfo t).success = true → (checkTokenInfo t).risk ≠ Risk.UNKNOWN) ∧
    ((checkTokenInfo t).success = false → (checkTokenInfo t).risk = Risk.UNKNOWN) := by
  cases t with
  | fetchError => exact ⟨by simp [checkTokenInfo], fun _ => rfl⟩
  | info ownerStatus =>
      refine ⟨fun _ => ?_, by simp [checkTokenInfo]⟩
      show (if ownerStatus = "active" then Risk.MEDIUM else Risk.LOW) ≠ Risk.UNKNOWN
      split_ifs <;> simp

lemma checkContractFunctions_invariant (c : ContractScanFetch) :
    ((checkContractFunctions c).success = true →
      (checkContractFunctions c).risk ≠ Risk.UNKNOWN) ∧
    ((checkContractFunctions c).success = false →
      (checkContractFunctions c).risk = Risk.UNKNOWN) := by
  cases c with
  | unverified => exact ⟨by simp [checkContractFunctions], fun _ => rfl⟩
  | fetchError => exact ⟨by simp [checkContractFunctions], fun _ => rfl⟩
  | abi cr hi me =>
      exact ⟨fun _ => contractFindingsRisk_ne_unknown cr hi me,
        by simp [checkContractFunctions]⟩

lemma checkLiquidity_invariant (o : LiquidityFetch) :
    ((checkLiquidity o).success = true → (checkLiquidity o).risk ≠ Risk.UNKNOWN) ∧
    ((checkLiquidity o).success = false →
      (checkLiquidity o).risk = Risk.UNKNOWN ∨
        (o = LiquidityFetch.noPool ∧ (checkLiquidity o).risk = Risk.CRITICAL)) := by
  cases o with
  | fetchError => exact ⟨by simp [checkLiquidity], fun _ => Or.inl rfl⟩
  | noPool => exact ⟨by simp [checkLiquidity], fun _ => Or.inr ⟨rfl, rfl⟩⟩
  | pool l s =>
      exact ⟨fun _ => liquidityRisk_ne_unknown l s, by simp [checkLiquidity]⟩

lemma checkHolders_invariant (hd : HoldersFetch) :
    ((checkHolders hd).success = true → (checkHolders hd).risk ≠ Risk.UNKNOWN) ∧
    ((checkHolders hd).success = false → (checkHolders hd).risk = Risk.UNKNOWN) := by
  cases hd with
  | noData => exact ⟨by simp [checkHolders], fun _ => rfl⟩
  | fetchError => exact ⟨by simp [checkHolders], fun _ => rfl⟩
  | holderData t1 t10 =>
      exact ⟨fun _ => holdersRisk_ne_unknown t1 t10, by simp [checkHolders]⟩

lemma checkHoneypot_invariant (hp : HoneypotFetch) :
    ((checkHoneypot hp).success = true → (checkHoneypot hp).risk ≠ Risk.UNKNOWN) ∧
    ((checkHoneypot hp).success = false → (checkHoneypot hp).risk = Risk.UNKNOWN) := by
  cases hp with
  | apiFailed => exact ⟨by simp [checkHoneypot], fun _ => rfl⟩
  | notInDatabase => exact ⟨by simp [checkHoneypot], fun _ => rfl⟩
  | fetchError => exact ⟨by simp [checkHoneypot], fun _ => rfl⟩
  | securityData hpf cr hi me =>
      exact ⟨fun _ => honeypotIssuesRisk_ne_unknown hpf cr hi me,
        by simp [checkHoneypot]⟩

lemma checkSocialSentiment_invariant (s : SentimentFetch) :
    ((checkSocialSentiment s).success = false →
      (checkSocialSentiment s).risk = some Risk.UNKNOWN) ∧
    ((checkSocialSentiment s).success = true →
      (checkSocialSentiment s).risk = none) := by
  cases s with
  | notFound => exact ⟨fun _ => rfl, by simp [checkSocialSentiment]⟩
  | fetchError => exact ⟨fun _ => rfl, by simp [checkSocialSentiment]⟩
  | found sc lv => exact ⟨by simp [checkSocialSentiment], fun _ => rfl⟩

/-- C7 fails on the code in two places: the no-pool-found branch of
`checkLiquidity` returns a failed result whose risk is CRITICAL, not
UNKNOWN, and the successful sentiment result of `checkSocialSentiment`
carries no risk field at all rather than a non-UNKNOWN risk. -/
theorem fetcher_unknown_risk_counterexample :
    (checkLiquidity LiquidityFetch.noPool).success = false ∧
    (checkLiquidity LiquidityFetch.noPool).risk = Risk.CRITICAL ∧
    (checkLiquidity LiquidityFetch.noPool).risk ≠ Risk.UNKNOWN ∧
    (checkSocialSentiment (SentimentFetch.found 50 "NEUTRAL")).success = true ∧
    (checkSocialSentiment (SentimentFetch.found 50 "NEUTRAL")).risk = none := by
  decide

/-- C7 amended: across all six fetchers, every failed result carries risk
UNKNOWN except the liquidity no-pool-found failure, which carries risk
CRITICAL; every successful token-info, contract-scan, liquidity, holders
or honeypot result carries a non-UNKNOWN risk; and while failed sentiment
results carry risk UNKNOWN, the successful sentiment result carries no
risk field at all (a sentiment level instead). -/
theorem fetcher_risk_invariant (t : TokenInfoFetch) (c : ContractScanFetch)
    (o : LiquidityFetch) (hd : HoldersFetch) (hp : HoneypotFetch) (s : SentimentFetch) :
    ((checkTokenInfo t).success = true → (checkTokenInfo t).risk ≠ Risk.UNKNOWN) ∧
    ((checkTokenInfo t).success = false → (checkTokenInfo t).risk = Risk.UNKNOWN) ∧
    ((checkContractFunctions c).success = true →
      (checkContractFunctions c).risk ≠ Risk.UNKNOWN) ∧
    ((checkContractFunctions c).success = false →
      (checkContractFunctions c).risk = Risk.UNKNOWN) ∧
    ((checkLiquidity o).success = true → (checkLiquidity o).risk ≠ Risk.UNKNOWN) ∧
    ((checkLiquidity o).success = false →
      (checkLiquidity o).risk = Risk.UNKNOWN ∨
        (o = LiquidityFetch.noPool ∧ (checkLiquidity o).risk = Risk.CRITICAL)) ∧
    ((checkHolders hd).success = true → (checkHolders hd).risk ≠ Risk.UNKNOWN) ∧
    ((checkHolders hd).success = false → (checkHolders hd).risk = Risk.UNKNOWN) ∧
    ((checkHoneypot hp).success = true → (checkHoneypot hp).risk ≠ Risk.UNKNOWN) ∧
    ((checkHoneypot hp).success = false → (checkHoneypot hp).risk = Risk.UNKNOWN) ∧
    ((checkSocialSentiment s).success = false →
      (checkSocialSentiment s).risk = some Risk.UNKNOWN) ∧
    ((checkSocialSentiment s).success = true →
      (checkSocialSentiment s).risk = none) :=
  ⟨(checkTokenInfo_invariant t).1, (checkTokenInfo_invariant t).2,
   (checkContractFunctions_invariant c).1, (checkContractFunctions_invariant c).2,
   (checkLiquidity_invariant o).1, (checkLiquidity_invariant o).2,
   (checkHolders_invariant hd).1, (checkHolders_invariant hd).2,
   (checkHoneypot_invariant hp).1, (checkHoneypot_invariant hp).2,
   (checkSocialSentiment_invariant s).1, (checkSocialSentiment_invariant s).2⟩

/-- Closed instance of `fetcher_risk_invariant` exercising a failed
token-info fetch, the no-pool liquidity failure and a successful
sentiment fetch. -/
theorem fetcher_risk_invariant_witness :
    (checkTokenInfo TokenInfoFetch.fetchError).risk = Risk.UNKNOWN ∧
    ((checkLiquidity LiquidityFetch.noPool).risk = Risk.UNKNOWN ∨
      (LiquidityFetch.noPool = LiquidityFetch.noPool ∧
       (checkLiquidity LiquidityFetch.noPool).risk = Risk.CRITICAL)) ∧
    (checkSocialSentiment (SentimentFetch.found 50 "NEUTRAL")).risk = none :=
  ⟨(fetcher_risk_invariant TokenInfoFetch.fetchError ContractScanFetch.unverified
      LiquidityFetch.noPool HoldersFetch.noData HoneypotFetch.apiFailed
      (SentimentFetch.found 50 "NEUTRAL")).2.1 rfl,
   (fetcher_risk_invariant TokenInfoFetch.fetchError ContractScanFetch.unverified
      LiquidityFetch.noPool HoldersFetch.noData HoneypotFetch.apiFailed
      (SentimentFetch.found 50 "NEUTRAL")).2.2.2.2.2.1 rfl,
   (fetcher_risk_invariant TokenInfoFetch.fetchError ContractScanFetch.unverified
      LiquidityFetch.noPool HoldersFetch.noData HoneypotFetch.apiFailed
      (SentimentFetch.found 50 "NEUTRAL")).2.2.2.2.2.2.2.2.2.2.2 rfl⟩

/-- C2 fails on the code: a failed holders fetch, a failed token-info fetch
and a failed honeypot fetch each contribute 0 to the score, not a strictly
positive unknown penalty; flipping the holders fetch of the clean scan to
failed leaves the aggregated score unchanged. -/
theorem failed_signal_no_penalty_counterexample :
    holdersPoints (⟨false, 40, 80⟩ : HoldersSignal) = 0 ∧
    tokenInfoPoints (⟨false, "active", some 1⟩ : TokenInfoSignal) = 0 ∧
    honeypotPoints (⟨false, true, true, true, true, true, true, some 99⟩ : HoneypotSignal) = 0 ∧
    riskScore failedHoldersScan = riskScore cleanScan := by
  decide

/-- C2 amended: only two of the six signals carry a fixed strictly positive
unknown penalty on fetch failure: the contract-function scan adds 15 and
the liquidity probe adds 20; failed token-info, holders and honeypot
fetches contribute 0, and the sentiment result is never read by the score
at all. -/
theorem unknown_penalty_policy (t : TokenInfoSignal) (c : ContractScanSignal)
    (l : LiquiditySignal) (h : HoldersSignal) (hp : HoneypotSignal)
    (ht : t.success = false) (hc : c.success = false) (hl : l.success = false)
    (hh : h.success = false) (hhp : hp.success = false) :
    contractScanPoints c = 15 ∧ 0 < contractScanPoints c ∧
    liquidityPoints l = 20 ∧ 0 < liquidityPoints l ∧
    tokenInfoPoints t = 0 ∧ holdersPoints h = 0 ∧ honeypotPoints hp = 0 := by
  simp [contractScanPoints, liquidityPoints, tokenInfoPoints, holdersPoints,
    honeypotPoints, ht, hc, hl, hh, hhp]

/-- Closed instance of `unknown_penalty_policy` at the all-failed scan. -/
theorem unknown_penalty_policy_witness :
    contractScanPoints allFailedScan.contractScan = 15 ∧
    0 < contractScanPoints allFailedScan.contractScan ∧
    liquidityPoints allFailedScan.liquidity = 20 ∧
    0 < liquidityPoints allFailedScan.liquidity ∧
    tokenInfoPoints allFailedScan.tokenInfo = 0 ∧
    holdersPoints allFailedScan.holders = 0 ∧
    honeypotPoints allFailedScan.honeypot = 0 :=
  unknown_penalty_policy allFailedScan.tokenInfo allFailedScan.contractScan
    allFailedScan.liquidity allFailedScan.holders allFailedScan.honeypot
    rfl rfl rfl rfl rfl

/-- One boolean flag is at least as adverse as another: it is set whenever
the other is. -/
def advFlag (b1 b2 : Bool) : Prop := b1 = true → b2 = true

instance (b1 b2 : Bool) : Decidable (advFlag b1 b2) :=
  inferInstanceAs (Decidable (b1 = true → b2 = true))

/-- One contract age is at least as adverse as another: both unknown, or
both known with the second at most the first (younger is worse). -/
def advAge : Option ℚ → Option ℚ → Prop
  | none, a2 => a2 = none
  | some a1, some a2 => a2 ≤ a1
  | some _, none => False

instance (a1 a2 : Option ℚ) : Decidable (advAge a1 a2) :=
  match a1, a2 with
  | none, a2 => inferInstanceAs (Decidable (a2 = none))
  | some a1, some a2 => inferInstanceAs (Decidable (a2 ≤ a1))
  | some _, none => inferInstanceAs (Decidable False)

/-- Token-info signal t2 is at least as adverse as t1: same fetch status,
the owner status unchanged or turned active, the contract age no older. -/
abbrev TokenInfoAdverse (t1 t2 : TokenInfoSignal) : Prop :=
  t2.success = t1.success ∧
  (t2.ownerStatus = t1.ownerStatus ∨ t2.ownerStatus = "active") ∧
  advAge t1.contractAge t2.contractAge

/-- Contract-scan signal c2 is at least as adverse as c1: same fetch
status and at least as many findings of each severity. -/
abbrev ContractScanAdverse (c1 c2 : ContractScanSignal) : Prop :=
  c2.success = c1.success ∧ c1.critical.length ≤ c2.critical.length ∧
  c1.high.length ≤ c2.high.length ∧ c1.medium.length ≤ c2.medium.length

/-- Liquidity signal l2 is at least as adverse as l1: same fetch status,
no more liquidity, no larger safe LP share. -/
abbrev LiquidityAdverse (l1 l2 : LiquiditySignal) : Prop :=
  l2.success = l1.success ∧ l2.liquidityUSD ≤ l1.liquidityUSD ∧
  l2.safePercent ≤ l1.safePercent

/-- Holders signal h2 is at least as adverse as h1: same fetch status and
at least as concentrated holdings. -/
abbrev HoldersAdverse (h1 h2 : HoldersSignal) : Prop :=
  h2.success = h1.success ∧ h1.top1Percent ≤ h2.top1Percent ∧
  h1.top10Percent ≤ h2.top10Percent

/-- Honeypot signal h2 is at least as adverse as h1: same fetch status,
every adverse flag of h1 still set in h2, and no smaller effective sell
tax. -/
abbrev HoneypotAdverse (h1 h2 : HoneypotSignal) : Prop :=
  h2.success = h1.success ∧ advFlag h1.isHoneypot h2.isHoneypot ∧
  advFlag h1.cannotBuy h2.cannotBuy ∧ advFlag h1.cannotSellAll h2.cannotSellAll ∧
  advFlag h1.ownerCanChangeBalance h2.ownerCanChangeBalance ∧
  advFlag h1.hiddenOwner h2.hiddenOwner ∧
  advFlag h1.canTakeBackOwnership h2.canTakeBackOwnership ∧
  h1.sellTax.getD 0 ≤ h2.sellTax.getD 0

/-- Scan r2 is at least as adverse as r1 in every scored signal and nothing
improved; the sentiment result is unconstrained because the score never
reads it. -/
abbrev MoreAdverse (r1 r2 : ScanResults) : Prop :=
  TokenInfoAdverse r1.tokenInfo r2.tokenInfo ∧
  ContractScanAdverse r1.contractScan r2.contractScan ∧
  LiquidityAdverse r1.liquidity r2.liquidity ∧
  HoldersAdverse r1.holders r2.holders ∧
  HoneypotAdverse r1.honeypot r2.honeypot

lemma ownerPoints_mono {s1 s2 : String} (h : s2 = s1 ∨ s2 = "active") :
    ownerPoints s1 ≤ ownerPoints s2 := by
  rcases h with h | h
  · rw [h]
  · rw [h]
    calc ownerPoints s1 ≤ 15 := ownerPoints_le s1
      _ = ownerPoints "active" := by unfold ownerPoints; norm_num

lemma agePoints_mono {a1 a2 : Option ℚ} (h : advAge a1 a2) :
    agePoints a1 ≤ agePoints a2 := by
  match a1, a2 with
  | none, a2 =>
      have h2 : a2 = none := h
      rw [h2]
  | some x1, some x2 =>
      have h2 : x2 ≤ x1 := h
      simp only [agePoints]
      split_ifs
      all_goals try norm_num
      all_goals exfalso
      all_goals linarith
  | some _, none => exact absurd h not_false

lemma tokenInfoPoints_mono {t1 t2 : TokenInfoSignal} (h : TokenInfoAdverse t1 t2) :
    tokenInfoPoints t1 ≤ tokenInfoPoints t2 := by
  obtain ⟨hs, ho, ha⟩ := h
  unfold tokenInfoPoints
  rw [hs]
  split_ifs
  · exact add_le_add (ownerPoints_mono ho) (agePoints_mono ha)
  · exact le_refl 0

lemma contractScanPoints_mono {c1 c2 : ContractScanSignal}
    (h : ContractScanAdverse c1 c2) :
    contractScanPoints c1 ≤ contractScanPoints c2 := by
  obtain ⟨hs, h1, h2, h3⟩ := h
  unfold contractScanPoints
  rw [hs]
  split_ifs
  · omega
  · exact le_refl 15

lemma liquidityUsdPoints_mono {x1 x2 : ℚ} (h : x2 ≤ x1) :
    liquidityUsdPoints x1 ≤ liquidityUsdPoints x2 := by
  unfold liquidityUsdPoints
  split_ifs
  all_goals try norm_num
  all_goals exfalso
  all_goals linarith

lemma lpSafePoints_mono {x1 x2 : ℚ} (h : x2 ≤ x1) :
    lpSafePoints x1 ≤ lpSafePoints x2 := by
  unfold lpSafePoints
  split_ifs
  all_goals try norm_num
  all_goals exfalso
  all_goals linarith

lemma liquidityPoints_mono {l1 l2 : LiquiditySignal} (h : LiquidityAdverse l1 l2) :
    liquidityPoints l1 ≤ liquidityPoints l2 := by
  obtain ⟨hs, h1, h2⟩ := h
  unfold liquidityPoints
  rw [hs]
  split_ifs
  · exact add_le_add (liquidityUsdPoints_mono h1) (lpSafePoints_mono h2)
  · exact le_refl 20

lemma top1Points_mono {x1 x2 : ℚ} (h : x1 ≤ x2) :
    top1Points x1 ≤ top1Points x2 := by
  unfold top1Points
  split_ifs
  all_goals try norm_num
  all_goals exfalso
  all_goals linarith

lemma top10Points_mono {x1 x2 : ℚ} (h : x1 ≤ x2) :
    top10Points x1 ≤ top10Points x2 := by
  unfold top10Points
  split_ifs
  all_goals try norm_num
  all_goals exfalso
  all_goals linarith

lemma holdersPoints_mono {h1 h2 : HoldersSignal} (h : HoldersAdverse h1 h2) :
    holdersPoints h1 ≤ holdersPoints h2 := by
  obtain ⟨hs, ha, hb⟩ := h
  unfold holdersPoints
  rw [hs]
  split_ifs
  · exact add_le_add (top1Points_mono ha) (top10Points_mono hb)
  · exact le_refl 0

lemma flag_ite_mono {b1 b2 : Bool} (h : advFlag b1 b2) {n : ℤ} (hn : 0 ≤ n) :
    (if b1 then n else 0) ≤ (if b2 then n else 0) := by
  cases b1 <;> cases b2 <;> simp_all [advFlag]

lemma honeypotFlagPoints_mono {h1 h2 : HoneypotSignal} (h : HoneypotAdverse h1 h2) :
    honeypotFlagPoints h1 ≤ honeypotFlagPoints h2 := by
  obtain ⟨_, f1, f2, f3, f4, f5, f6, _⟩ := h
  unfold honeypotFlagPoints
  have g1 := flag_ite_mono f1 (by norm_num : (0:ℤ) ≤ 50)
  have g2 := flag_ite_mono f2 (by norm_num : (0:ℤ) ≤ 20)
  have g3 := flag_ite_mono f3 (by norm_num : (0:ℤ) ≤ 20)
  have g4 := flag_ite_mono f4 (by norm_num : (0:ℤ) ≤ 15)
  have g5 := flag_ite_mono f5 (by norm_num : (0:ℤ) ≤ 10)
  have g6 := flag_ite_mono f6 (by norm_num : (0:ℤ) ≤ 10)
  linarith

lemma sellTaxPoints_mono {x1 x2 : ℚ} (h : x1 ≤ x2) :
    sellTaxPoints x1 ≤ sellTaxPoints x2 := by
  unfold sellTaxPoints
  split_ifs
  all_goals try norm_num
  all_goals exfalso
  all_goals linarith

lemma honeypotPoints_mono {h1 h2 : HoneypotSignal} (h : HoneypotAdverse h1 h2) :
    honeypotPoints h1 ≤ honeypotPoints h2 := by
  have hs := h.1
  have htax := h.2.2.2.2.2.2.2
  unfold honeypotPoints
  rw [hs]
  split_ifs
  · exact add_le_add (honeypotFlagPoints_mono h) (sellTaxPoints_mono htax)
  · exact le_refl 0

/-- C6: if scan r2 reports at least as adverse findings as scan r1 in every
scored field and nothing improved, the aggregated score of r2 is at least
that of r1: every per-signal contribution is monotone in the adverse
direction and both the sum and the final clamp preserve the order. -/
theorem riskScore_monotone (r1 r2 : ScanResults) (h : MoreAdverse r1 r2) :
    riskScore r1 ≤ riskScore r2 := by
  obtain ⟨h1, h2, h3, h4, h5⟩ := h
  have hraw : rawScore r1 ≤ rawScore r2 := by
    unfold rawScore
    have g1 := tokenInfoPoints_mono h1
    have g2 := contractScanPoints_mono h2
    have g3 := liquidityPoints_mono h3
    have g4 := holdersPoints_mono h4
    have g5 := honeypotPoints_mono h5
    linarith
  exact min_le_min hraw (le_refl 100)

/-- Closed instance of `riskScore_monotone`: the scenario-1 scan is more
adverse than the clean scan in every scored field, and its score is indeed
no smaller. -/
theorem riskScore_monotone_witness : riskScore cleanScan ≤ riskScore scenario1Scan :=
  riskScore_monotone cleanScan scenario1Scan (by decide)

end RugChecker
